import Mathlib

/-!
Verification development for the `pcap` capture package (`capture.go`).

The Go source is shallowly embedded below:

* `CreateHandler` (descriptor parsing and local-IP-to-interface rewriting)
  becomes `CreateHandler` over an explicit `NetEnv` record standing for the
  external collaborators `net.ResolveIPAddr` and `pcap.FindAllDevs`.
* `StartCapture`'s per-packet body becomes `step`; the surrounding
  `for { select { ... } }` loop over the packet channel becomes `runCapture`
  over a finite `List Packet` (channel close / file exhaustion = end of list).
* Go byte slices are `List Nat`; the `map[uint64][]byte` session table is an
  association list `Table` with `lookupS` / `insertS` / `deleteS`.
  The Go code appends into a local `buffer` variable and only stores
  `buffer[usedSize:]` back into the map in the
  `err == nil && len(buffer) != usedSize` branch, so the list-valued table
  below records exactly the slice headers the map holds; the shared backing
  array is never observable through the map except via those headers.
* Go run-time panics (nil-interface type assertion on the IPv4 layer,
  slice-bounds violation in `buffer[usedSize:]`) are the `panicked`
  constructors; returning an error value is `fatal`-free here because the
  only in-loop `return errors.New(..)` is unreachable (see `ipv4Missing`
  theorems below).
* `log.Println` / `log.Printf` effects are recorded in a `LogEntry` trace;
  data-handler invocations are recorded in a `Call` trace.
-/

namespace Pkt4Go

/-- A decoded byte, as carried in `tcp.Payload` / `udp.Payload`. -/
abbrev Byte := Nat

/-- `net.TCPAddr` / `net.UDPAddr` values built by `StartCapture` and passed
to the data handler (`src`, `dst`).  The handler may also receive Go `nil`
for these, hence `Option Addr` at use sites. -/
inductive Addr where
  | tcpAddr (ip : String) (port : Nat)
  | udpAddr (ip : String) (port : Nat)
deriving DecidableEq, Repr

/-- The error value returned by a data handler: Go `io.EOF` or any other
non-nil error (carrying its message). -/
inductive HandlerErr where
  | eofErr
  | otherErr (msg : String)
deriving DecidableEq, Repr

/-- `pkt4go.DataHandler`: `func(src, dst net.Addr, payload []byte) (int, error)`.
The `Int` is Go's `int` return `usedSize` (it may be negative or exceed the
buffer length; the engine nowhere validates it). -/
abbrev DataHandler := Option Addr → Option Addr → List Byte → Int × Option HandlerErr

/-- A decoded TCP segment as `gopacket` hands it to the loop: ports, the
SYN/ACK/FIN flags inspected by the code, the already-computed direction-agnostic
`TransportFlow().FastHash()` value, and the payload bytes. -/
structure TCPSeg where
  srcPort : Nat
  dstPort : Nat
  syn : Bool
  ack : Bool
  fin : Bool
  flowHash : Nat
  payload : List Byte
deriving DecidableEq, Repr

/-- A decoded UDP datagram: ports, `TransportFlow().FastHash()`, payload. -/
structure UDPSeg where
  srcPort : Nat
  dstPort : Nat
  flowHash : Nat
  payload : List Byte
deriving DecidableEq, Repr

/-- The transport layer of a packet, as dispatched by
`switch ip.NextLayerType()`: TCP, UDP, or any other layer type (carrying the
`String()` name used in the log message). -/
inductive TransportSeg where
  | tcp (t : TCPSeg)
  | udp (u : UDPSeg)
  | other (name : String)
deriving DecidableEq, Repr

/-- The decoded IPv4 layer: source/destination IPs and the next layer. -/
structure IPv4Layer where
  srcIP : String
  dstIP : String
  transport : TransportSeg
deriving DecidableEq, Repr

/-- A captured packet delivered on the channel: its metadata timestamp (used
only in the failure log line) and its IPv4 layer — `none` when
`pkg.Layer(layers.LayerTypeIPv4)` returns a nil `gopacket.Layer`. -/
structure Packet where
  ts : String
  ipv4 : Option IPv4Layer
deriving DecidableEq, Repr

/-- The session table `sessionBuffers : map[uint64][]byte`, as an association
list from flow hash to buffered bytes. -/
abbrev Table := List (Nat × List Byte)

/-- Map lookup `buffer, bufferExist = sessionBuffers[flowHash]`. -/
def lookupS : Table → Nat → Option (List Byte)
  | [], _ => none
  | (k, v) :: rest, key => if k = key then some v else lookupS rest key

/-- Map update `sessionBuffers[flowHash] = v`. -/
def insertS : Table → Nat → List Byte → Table
  | [], key, v => [(key, v)]
  | (k, w) :: rest, key, v =>
      if k = key then (key, v) :: rest else (k, w) :: insertS rest key v

/-- Map removal `delete(sessionBuffers, flowHash)`. -/
def deleteS : Table → Nat → Table
  | [], _ => []
  | (k, w) :: rest, key =>
      if k = key then deleteS rest key else (k, w) :: deleteS rest key

/-- One recorded data-handler invocation: the `src`, `dst` and buffer view
passed to `fn`. -/
abbrev Call := Option Addr × Option Addr × List Byte

/-- One recorded `log` effect of the loop body. -/
inductive LogEntry where
  | unsupportedTransport (name : String)
  | handlerFailed (ts : String) (src dst : Option Addr) (msg : String)
deriving DecidableEq, Repr

/-- Panic message of the nil-interface type assertion
`pkg.Layer(layers.LayerTypeIPv4).(*layers.IPv4)` when the packet has no
IPv4 layer. -/
def ipv4AssertPanic : String :=
  "interface conversion: gopacket.Layer is nil, not *layers.IPv4"

/-- Panic message of an out-of-range `buffer[usedSize:]`. -/
def sliceBoundsPanic : String :=
  "runtime error: slice bounds out of range"

/-- Outcome of one iteration of the capture loop body on one packet. -/
inductive StepResult where
  /-- The iteration fell through to the next loop turn. -/
  | next (tbl : Table) (calls : List Call) (logs : List LogEntry)
  /-- The loop returned `nil` (data handler reported `io.EOF`). -/
  | done (tbl : Table) (calls : List Call) (logs : List LogEntry)
  /-- The iteration panicked (run-time error, not an error return). -/
  | panicked (msg : String)
deriving DecidableEq, Repr

/-- The shared tail of the loop body, from `usedSize, err = fn(src, dst, buffer)`
on: EOF terminates, any other error is logged and the table is left untouched,
a nil error stores `buffer[usedSize:]` back under `flowHash` unless
`usedSize` equals the buffer length — and `buffer[usedSize:]` panics when
`usedSize` is negative or exceeds the buffer length. -/
def applyHandler (f : DataHandler) (ts : String) (src dst : Option Addr)
    (buffer : List Byte) (flowHash : Nat) (tbl : Table)
    (preLogs : List LogEntry) : StepResult :=
  let r := f src dst buffer
  let usedSize : Int := r.1
  let call : Call := (src, dst, buffer)
  match r.2 with
  | some .eofErr => .done tbl [call] preLogs
  | some (.otherErr m) =>
      .next tbl [call] (preLogs ++ [.handlerFailed ts src dst m])
  | none =>
      if usedSize = (buffer.length : Int) then .next tbl [call] preLogs
      else if 0 ≤ usedSize ∧ usedSize < (buffer.length : Int) then
        .next (insertS tbl flowHash (buffer.drop usedSize.toNat)) [call] preLogs
      else .panicked sliceBoundsPanic

/-- The body of `StartCapture`'s loop for one received packet `pkg`
(after the `pkg == nil` channel-close check): skip everything when `fn` is
nil; otherwise assert the IPv4 layer (panicking when absent), dispatch on the
transport layer, and run the handler/feedback tail. -/
def step (fn : Option DataHandler) (tbl : Table) (pkg : Packet) : StepResult :=
  match fn with
  | none => .next tbl [] []
  | some f =>
    match pkg.ipv4 with
    | none => .panicked ipv4AssertPanic
    | some ip =>
      match ip.transport with
      | .tcp t =>
        let src := some (Addr.tcpAddr ip.srcIP t.srcPort)
        let dst := some (Addr.tcpAddr ip.dstIP t.dstPort)
        if t.syn && t.ack then .next (insertS tbl t.flowHash []) [] []
        else if t.fin && t.ack then .next (deleteS tbl t.flowHash) [] []
        else if t.payload.isEmpty then .next tbl [] []
        else
          match lookupS tbl t.flowHash with
          | none => .next tbl [] []
          | some b =>
              applyHandler f pkg.ts src dst (b ++ t.payload) t.flowHash tbl []
      | .udp u =>
        let src := some (Addr.udpAddr ip.srcIP u.srcPort)
        let dst := some (Addr.udpAddr ip.dstIP u.dstPort)
        let buffer :=
          match lookupS tbl u.flowHash with
          | some b => b ++ u.payload
          | none => []
        applyHandler f pkg.ts src dst buffer u.flowHash tbl []
      | .other name =>
        applyHandler f pkg.ts none none [] 0 tbl
          [LogEntry.unsupportedTransport name]

/-- Outcome of running the loop over a finite packet sequence. -/
inductive RunResult where
  | ok (tbl : Table) (calls : List Call) (logs : List LogEntry)
  | panicked (calls : List Call) (logs : List LogEntry) (msg : String)
deriving DecidableEq, Repr

/-- `StartCapture`'s loop over a finite packet sequence: the end of the list
is the channel delivering `nil` (capture closed / file exhausted), which
returns `nil`.  Accumulates the handler-call and log traces. -/
def runCapture (fn : Option DataHandler) (tbl : Table) :
    List Packet → RunResult
  | [] => .ok tbl [] []
  | p :: ps =>
    match step fn tbl p with
    | .panicked m => .panicked [] [] m
    | .done tbl' cs ls => .ok tbl' cs ls
    | .next tbl' cs ls =>
      match runCapture fn tbl' ps with
      | .ok tbl2 cs2 ls2 => .ok tbl2 (cs ++ cs2) (ls ++ ls2)
      | .panicked cs2 ls2 m => .panicked (cs ++ cs2) (ls ++ ls2) m

/-! ## `CreateHandler`: descriptor parsing and source resolution -/

/-- Errors of `CreateHandler`, by provenance in the Go code. -/
inductive HandlerError where
  /-- `errors.New("invalid data source: " + dataSrc)`: the descriptor did not
  match `dataSourcePattern`. -/
  | invalidDataSource (dataSrc : List Char)
  /-- `pcap.FindAllDevs` failed. -/
  | findDevsFailed (msg : String)
  /-- `errors.New("unknown pcap protocol: " + proto)`: the switch default. -/
  | unknownProto (proto : String)
deriving DecidableEq, Repr

/-- Which libpcap entry point the resolved source is handed to. -/
inductive CaptureMode where
  /-- `pcap.OpenLive(source, 65535, true, time.Hour)`. -/
  | live
  /-- `pcap.OpenOffline(source)`. -/
  | offline
deriving DecidableEq, Repr

/-- `dataSourcePattern.FindStringSubmatch` for
`^(?P<proto>pcap|file)://(?P<source>.*)$`: the whole input must be
`pcap://` or `file://` followed by a newline-free remainder (`.` does not
match a newline and `$` anchors at end of text).  Returns the `proto` and
`source` submatches. -/
def matchDataSource (s : List Char) : Option (String × List Char) :=
  if s.take 7 = "pcap://".toList ∧ ¬ (s.drop 7).contains '\n' then
    some ("pcap", s.drop 7)
  else if s.take 7 = "file://".toList ∧ ¬ (s.drop 7).contains '\n' then
    some ("file", s.drop 7)
  else none

/-- The external collaborators of `CreateHandler`: `net.ResolveIPAddr`
(`none` = resolution error, `some ip` = the resolved IP value) and
`pcap.FindAllDevs` (the interface list, each with its owned addresses, or a
failure). -/
structure NetEnv where
  resolveIP : List Char → Option (List Char)
  devs : Except String (List (List Char × List (List Char)))

/-- The `FIND_IFACE` loop: the name of the first interface owning `ip`,
if any. -/
def findIfaceName : List (List Char × List (List Char)) → List Char →
    Option (List Char)
  | [], _ => none
  | (name, addrs) :: rest, ip =>
      if addrs.contains ip then some name else findIfaceName rest ip

/-- The source-rewriting block of `CreateHandler`: when `source` resolves as
an IP address, enumerate devices (propagating enumeration failure) and
replace `source` with the name of the first interface owning that address;
otherwise, or when no interface matches, keep `source` unchanged.  This block
runs before the protocol switch, for every protocol. -/
def resolveSource (env : NetEnv) (source : List Char) :
    Except HandlerError (List Char) :=
  match env.resolveIP source with
  | none => .ok source
  | some ip =>
    match env.devs with
    | .error e => .error (.findDevsFailed e)
    | .ok ifaceList => .ok ((findIfaceName ifaceList ip).getD source)

/-- `CreateHandler`: parse the descriptor against `dataSourcePattern`,
rewrite the source through `resolveSource`, then dispatch on the protocol.
The result records which libpcap open call receives which source string. -/
def CreateHandler (env : NetEnv) (dataSrc : List Char) :
    Except HandlerError (CaptureMode × List Char) :=
  match matchDataSource dataSrc with
  | none => .error (.invalidDataSource dataSrc)
  | some (proto, source) =>
    match resolveSource env source with
    | .error e => .error e
    | .ok source' =>
      if proto = "pcap" then .ok (.live, source')
      else if proto = "file" then .ok (.offline, source')
      else .error (.unknownProto proto)

end Pkt4Go

namespace Pkt4Go

/-! ## Helper lemmas about the session table and the handler tail -/

theorem lookupS_insertS_self (tbl : Table) (k : Nat) (v : List Byte) :
    lookupS (insertS tbl k v) k = some v := by
  induction tbl with
  | nil => simp [insertS, lookupS]
  | cons hd rest ih =>
    obtain ⟨k', v'⟩ := hd
    by_cases h : k' = k
    · simp [insertS, lookupS, h]
    · simp [insertS, lookupS, h, ih]

theorem lookupS_deleteS_self (tbl : Table) (k : Nat) :
    lookupS (deleteS tbl k) k = none := by
  induction tbl with
  | nil => simp [deleteS, lookupS]
  | cons hd rest ih =>
    obtain ⟨k', v'⟩ := hd
    by_cases h : k' = k
    · simp [deleteS, h, ih]
    · simp [deleteS, lookupS, h, ih]

theorem applyHandler_full (f : DataHandler) (ts : String) (src dst : Option Addr)
    (buffer : List Byte) (fh : Nat) (tbl : Table) (logs : List LogEntry)
    (hf : f src dst buffer = ((buffer.length : Int), none)) :
    applyHandler f ts src dst buffer fh tbl logs =
      .next tbl [(src, dst, buffer)] logs := by
  simp [applyHandler, hf]

theorem applyHandler_partial (f : DataHandler) (ts : String) (src dst : Option Addr)
    (buffer : List Byte) (fh : Nat) (tbl : Table) (logs : List LogEntry)
    (k : Int) (hf : f src dst buffer = (k, none))
    (hk0 : 0 ≤ k) (hklt : k < (buffer.length : Int)) :
    applyHandler f ts src dst buffer fh tbl logs =
      .next (insertS tbl fh (buffer.drop k.toNat)) [(src, dst, buffer)] logs := by
  have hne : ¬ k = (buffer.length : Int) := by omega
  simp [applyHandler, hf, hne, hk0, hklt]

theorem applyHandler_err (f : DataHandler) (ts : String) (src dst : Option Addr)
    (buffer : List Byte) (fh : Nat) (tbl : Table) (logs : List LogEntry)
    (u : Int) (m : String)
    (hf : f src dst buffer = (u, some (.otherErr m))) :
    applyHandler f ts src dst buffer fh tbl logs =
      .next tbl [(src, dst, buffer)] (logs ++ [.handlerFailed ts src dst m]) := by
  simp [applyHandler, hf]

theorem applyHandler_oob (f : DataHandler) (ts : String) (src dst : Option Addr)
    (buffer : List Byte) (fh : Nat) (tbl : Table) (logs : List LogEntry)
    (u : Int) (hf : f src dst buffer = (u, none))
    (hu : u < 0 ∨ (buffer.length : Int) < u) :
    applyHandler f ts src dst buffer fh tbl logs = .panicked sliceBoundsPanic := by
  have hne : ¬ u = (buffer.length : Int) := by omega
  have hnr : ¬ (0 ≤ u ∧ u < (buffer.length : Int)) := by omega
  simp [applyHandler, hf, hne, hnr]

/-- A TCP packet seen by the loop, with every header field the code reads. -/
def tcpPkt (ts sIP dIP : String) (sp dp : Nat) (syn ack fin : Bool)
    (fh : Nat) (pl : List Byte) : Packet :=
  ⟨ts, some ⟨sIP, dIP, .tcp ⟨sp, dp, syn, ack, fin, fh, pl⟩⟩⟩

/-- A UDP packet seen by the loop. -/
def udpPkt (ts sIP dIP : String) (sp dp : Nat) (fh : Nat)
    (pl : List Byte) : Packet :=
  ⟨ts, some ⟨sIP, dIP, .udp ⟨sp, dp, fh, pl⟩⟩⟩

theorem step_tcp_payload (f : DataHandler) (tbl : Table) (b : List Byte)
    (ts sIP dIP : String) (sp dp : Nat) (syn ack fin : Bool) (fh : Nat)
    (p : List Byte)
    (hsa : (syn && ack) = false) (hfa : (fin && ack) = false) (hp : p ≠ [])
    (hlook : lookupS tbl fh = some b) :
    step (some f) tbl (tcpPkt ts sIP dIP sp dp syn ack fin fh p) =
      applyHandler f ts (some (Addr.tcpAddr sIP sp)) (some (Addr.tcpAddr dIP dp))
        (b ++ p) fh tbl [] := by
  cases p with
  | nil => exact absurd rfl hp
  | cons a rest => simp [step, tcpPkt, hsa, hfa, hlook]

end Pkt4Go

namespace Pkt4Go

/-! ## Concrete handlers and environments used in witnesses and
counterexamples -/

/-- A data handler that consumes nothing and never fails. -/
def zeroH : DataHandler := fun _ _ _ => (0, none)

/-- A data handler that always reports exactly one byte consumed. -/
def oneH : DataHandler := fun _ _ _ => (1, none)

/-- A data handler that consumes the whole buffer. -/
def fullH : DataHandler := fun _ _ buf => ((buf.length : Int), none)

/-- A handler that fully consumes two-byte buffers and otherwise consumes
nothing (used to exercise the full-consumption feedback path mid-run). -/
def twoByteH : DataHandler := fun _ _ buf =>
  if buf.length = 2 then ((2 : Int), none) else (0, none)

/-- A handler that fails (non-EOF) exactly on the buffer `[65]` and otherwise
consumes nothing. -/
def failOn65H : DataHandler := fun _ _ buf =>
  if buf = [65] then (0, some (.otherErr "boom")) else ((0 : Int), none)

/-- A network environment in which nothing resolves as an IP address. -/
def envEmpty : NetEnv := ⟨fun _ => none, .ok []⟩

/-- A network environment with one interface `eth0` owning `10.1.2.3`. -/
def envEth0 : NetEnv :=
  ⟨fun s => if s = "10.1.2.3".toList then some ("10.1.2.3".toList) else none,
   .ok [("eth0".toList, ["10.1.2.3".toList])]⟩

/-! ## Claim theorems -/

/-- Claim C10: when no data handler is registered (`fn == nil`), every packet
is skipped before any per-packet processing: the loop runs the whole packet
sequence to exhaustion and returns normally, the session table is never
created, mutated or torn down, no handler is ever invoked, nothing is logged,
and even a packet without a decodable IPv4 layer does not terminate the loop
(the `fn == nil` check precedes the layer assertion). -/
theorem nilHandlerSkipsEverything (tbl : Table) (pkts : List Packet) :
    runCapture none tbl pkts = .ok tbl [] [] := by
  induction pkts with
  | nil => rfl
  | cons p ps ih => simp [runCapture, step, ih]

/-- Claim C3 (code bug): for a packet lacking a decodable IPv4 layer, the loop
does not return the intended `"captured packet is not a valid IPv4 packet"`
error value — the unchecked type assertion
`pkg.Layer(layers.LayerTypeIPv4).(*layers.IPv4)` panics on the nil interface
first, so that `return errors.New(..)` is unreachable and the loop dies with a
run-time panic instead of propagating an error to the caller. -/
theorem missingIPv4PanicsNotError (f : DataHandler) (tbl : Table) (ts : String)
    (ps : List Packet) :
    step (some f) tbl ⟨ts, none⟩ = .panicked ipv4AssertPanic ∧
    runCapture (some f) tbl (⟨ts, none⟩ :: ps) =
      .panicked [] [] ipv4AssertPanic := by
  constructor
  · rfl
  · rfl

/-- Claim C5: TCP session lifecycle.  (1) A SYN+ACK packet for flow `F` stores
a fresh empty buffer for `F` whatever was there before, without invoking the
handler; (2) a FIN+ACK packet deletes `F`'s table entry, without invoking the
handler; (3) while `F` is absent, every payload-only packet for `F` (neither
SYN+ACK nor FIN+ACK, nonempty payload) is dropped: no handler call, table
unchanged — so after a teardown nothing reaches the handler until a new
SYN+ACK re-creates the entry. -/
theorem tcpSessionLifecycle :
    (∀ (f : DataHandler) (tbl : Table) (ts sIP dIP : String) (sp dp : Nat)
       (fin : Bool) (fh : Nat) (pl : List Byte),
       step (some f) tbl (tcpPkt ts sIP dIP sp dp true true fin fh pl) =
         .next (insertS tbl fh []) [] [] ∧
       lookupS (insertS tbl fh []) fh = some []) ∧
    (∀ (f : DataHandler) (tbl : Table) (ts sIP dIP : String) (sp dp : Nat)
       (fh : Nat) (pl : List Byte),
       step (some f) tbl (tcpPkt ts sIP dIP sp dp false true true fh pl) =
         .next (deleteS tbl fh) [] [] ∧
       lookupS (deleteS tbl fh) fh = none) ∧
    (∀ (f : DataHandler) (tbl : Table) (ts sIP dIP : String) (sp dp : Nat)
       (syn ack fin : Bool) (fh : Nat) (pl : List Byte),
       lookupS tbl fh = none → (syn && ack) = false → (fin && ack) = false →
       pl ≠ [] →
       step (some f) tbl (tcpPkt ts sIP dIP sp dp syn ack fin fh pl) =
         .next tbl [] []) := by
  refine ⟨?_, ?_, ?_⟩
  · intro f tbl ts sIP dIP sp dp fin fh pl
    exact ⟨by simp [step, tcpPkt], lookupS_insertS_self tbl fh []⟩
  · intro f tbl ts sIP dIP sp dp fh pl
    exact ⟨by simp [step, tcpPkt], lookupS_deleteS_self tbl fh⟩
  · intro f tbl ts sIP dIP sp dp syn ack fin fh pl hlook hsa hfa hp
    cases pl with
    | nil => exact absurd rfl hp
    | cons a rest => simp [step, tcpPkt, hsa, hfa, hlook]

/-- Witness for `tcpSessionLifecycle`: the three lifecycle arms evaluated on a
concrete flow 7 — a SYN+ACK over a stale entry, a FIN+ACK, and a dropped
payload-only packet for the now-absent flow. -/
theorem tcpSessionLifecycleWitness :
    (step (some zeroH) [(7, [1, 2])] (tcpPkt "t0" "a" "b" 1 2 true true false 7 []) =
       .next (insertS [(7, [1, 2])] 7 []) [] [] ∧
     lookupS (insertS [(7, [1, 2])] 7 []) 7 = some []) ∧
    (step (some zeroH) [(7, [3])] (tcpPkt "t1" "a" "b" 1 2 false true true 7 []) =
       .next (deleteS [(7, [3])] 7) [] [] ∧
     lookupS (deleteS [(7, [3])] 7) 7 = none) ∧
    step (some zeroH) [] (tcpPkt "t2" "a" "b" 1 2 false true false 7 [9]) =
      .next [] [] [] :=
  ⟨tcpSessionLifecycle.1 zeroH [(7, [1, 2])] "t0" "a" "b" 1 2 false 7 [],
   tcpSessionLifecycle.2.1 zeroH [(7, [3])] "t1" "a" "b" 1 2 7 [],
   tcpSessionLifecycle.2.2 zeroH [] "t2" "a" "b" 1 2 false true false 7 [9]
     (by decide) (by decide) (by decide) (by decide)⟩

end Pkt4Go

namespace Pkt4Go

/-- Claim C7: the engine has an unstated precondition
`0 <= usedSize <= len(buffer)` on the handler's return.  If the handler
returns a nil error and a count exceeding the buffer view's length — in
particular any positive count for the empty (nil) buffer of the UDP
absent-flow branch — the slice expression `buffer[usedSize:]` is out of range
and the iteration panics instead of returning an error. -/
theorem consumedBeyondBufferPanics (f g : DataHandler) (tbl tbl2 : Table)
    (u u2 : Int) (fh fh2 sp dp : Nat) (ts sIP dIP : String)
    (pl b : List Byte) (src2 dst2 : Option Addr)
    (h1 : lookupS tbl fh = none)
    (h2 : f (some (Addr.udpAddr sIP sp)) (some (Addr.udpAddr dIP dp)) [] =
            (u, none))
    (h3 : 0 < u)
    (h4 : g src2 dst2 b = (u2, none))
    (h5 : (b.length : Int) < u2) :
    step (some f) tbl (udpPkt ts sIP dIP sp dp fh pl) =
      .panicked sliceBoundsPanic ∧
    applyHandler g ts src2 dst2 b fh2 tbl2 [] = .panicked sliceBoundsPanic := by
  constructor
  · have hstep : step (some f) tbl (udpPkt ts sIP dIP sp dp fh pl) =
        applyHandler f ts (some (Addr.udpAddr sIP sp))
          (some (Addr.udpAddr dIP dp)) [] fh tbl [] := by
      simp [step, udpPkt, h1]
    rw [hstep]
    exact applyHandler_oob f ts _ _ [] fh tbl [] u h2 (by simp; omega)
  · exact applyHandler_oob g ts src2 dst2 b fh2 tbl2 [] u2 h4 (Or.inr h5)

/-- Witness for `consumedBeyondBufferPanics`: a UDP packet for an absent flow
with a handler claiming one byte consumed from the nil buffer, and the generic
tail with a handler claiming three bytes consumed from a two-byte buffer. -/
theorem consumedBeyondBufferPanicsWitness :
    step (some oneH) [] (udpPkt "t0" "a" "b" 5 6 9 [1, 2]) =
      .panicked sliceBoundsPanic ∧
    applyHandler (fun _ _ _ => ((3 : Int), none)) "t0" none none [4, 5] 9 [] [] =
      .panicked sliceBoundsPanic :=
  consumedBeyondBufferPanics oneH (fun _ _ _ => ((3 : Int), none)) [] [] 1 3
    9 9 5 6 "t0" "a" "b" [1, 2] [4, 5] none none
    (by decide) (by decide) (by decide) (by decide) (by decide)

/-- Claim C4: residual-plus-append concatenation order.  Concretely, after
`handshake(F)`, `payload(F, "AB")`, `payload(F, "CD")` with the handler always
returning `(1, nil)`, the handler sees exactly the buffers `"AB"` (leaving
residual `"B"`) and then `"BCD"` (leaving residual `"CD"`); in general a
payload packet presents `stored ++ payload` to the handler and a partial
return `k < N` with nil error stores exactly the suffix `(stored ++ payload).drop k`,
so the next payload appends to `b[k:]`, not to `b`. -/
theorem residualPlusAppendOrder (f : DataHandler) (tbl : Table) (b : List Byte)
    (ts sIP dIP : String) (sp dp : Nat) (syn ack fin : Bool) (fh : Nat)
    (p : List Byte) (k : Int)
    (hsa : (syn && ack) = false) (hfa : (fin && ack) = false) (hp : p ≠ [])
    (hlook : lookupS tbl fh = some b)
    (hf : f (some (Addr.tcpAddr sIP sp)) (some (Addr.tcpAddr dIP dp)) (b ++ p) =
            (k, none))
    (hk0 : 0 ≤ k) (hklt : k < ((b ++ p).length : Int)) :
    (step (some f) tbl (tcpPkt ts sIP dIP sp dp syn ack fin fh p) =
       .next (insertS tbl fh ((b ++ p).drop k.toNat))
         [(some (Addr.tcpAddr sIP sp), some (Addr.tcpAddr dIP dp), b ++ p)] [] ∧
     lookupS (insertS tbl fh ((b ++ p).drop k.toNat)) fh =
       some ((b ++ p).drop k.toNat)) ∧
    runCapture (some oneH) []
      [tcpPkt "h0" "10.0.0.1" "10.0.0.2" 1000 2000 true true false 7 [],
       tcpPkt "h1" "10.0.0.1" "10.0.0.2" 1000 2000 false true false 7 [65, 66],
       tcpPkt "h2" "10.0.0.1" "10.0.0.2" 1000 2000 false true false 7 [67, 68]] =
      .ok [(7, [67, 68])]
        [(some (Addr.tcpAddr "10.0.0.1" 1000), some (Addr.tcpAddr "10.0.0.2" 2000),
            [65, 66]),
         (some (Addr.tcpAddr "10.0.0.1" 1000), some (Addr.tcpAddr "10.0.0.2" 2000),
            [66, 67, 68])] [] := by
  constructor
  · constructor
    · rw [step_tcp_payload f tbl b ts sIP dIP sp dp syn ack fin fh p hsa hfa hp
        hlook]
      exact applyHandler_partial f ts _ _ (b ++ p) fh tbl [] k hf hk0 hklt
    · exact lookupS_insertS_self tbl fh _
  · decide

/-- Witness for `residualPlusAppendOrder`: the generic part instantiated at
the second handler call of the claim's concrete scenario — stored residual
`"B"`, arriving payload `"CD"`, handler returning `(1, nil)`. -/
theorem residualPlusAppendOrderWitness :
    step (some oneH) [(7, [66])]
        (tcpPkt "h2" "10.0.0.1" "10.0.0.2" 1000 2000 false true false 7 [67, 68]) =
      .next (insertS [(7, [66])] 7 (([66] ++ [67, 68]).drop (1 : Int).toNat))
        [(some (Addr.tcpAddr "10.0.0.1" 1000), some (Addr.tcpAddr "10.0.0.2" 2000),
            [66] ++ [67, 68])] [] ∧
    lookupS (insertS [(7, [66])] 7 (([66] ++ [67, 68]).drop (1 : Int).toNat)) 7 =
      some (([66] ++ [67, 68]).drop (1 : Int).toNat) :=
  (residualPlusAppendOrder oneH [(7, [66])] [66] "h2" "10.0.0.1" "10.0.0.2"
    1000 2000 false true false 7 [67, 68] 1 (by decide) (by decide) (by decide)
    (by decide) (by decide) (by decide) (by decide)).1

end Pkt4Go

namespace Pkt4Go

/-- Counterexample to claim C1: after handshake on flow 7, a handler that
consumes nothing on one-byte buffers and everything on two-byte buffers sees
`[88]` (residual `[88]` stored), then `[88, 89]` — length 2, fully consumed
with nil error — and then `[88, 90]`: byte 88 of the fully-consumed buffer is
re-delivered, and the stored entry after the full consumption is `[88]`, not
an empty buffer (the `len(buffer) != usedSize` guard skips the write-back, so
the table keeps the pre-append slice). -/
theorem fullConsumptionRedeliveryCex :
    runCapture (some twoByteH) []
      [tcpPkt "t0" "10.0.0.1" "10.0.0.2" 1000 2000 true true false 7 [],
       tcpPkt "t1" "10.0.0.1" "10.0.0.2" 1000 2000 false true false 7 [88],
       tcpPkt "t2" "10.0.0.1" "10.0.0.2" 1000 2000 false true false 7 [89],
       tcpPkt "t3" "10.0.0.1" "10.0.0.2" 1000 2000 false true false 7 [90]] =
      .ok [(7, [88])]
        [(some (Addr.tcpAddr "10.0.0.1" 1000), some (Addr.tcpAddr "10.0.0.2" 2000),
            [88]),
         (some (Addr.tcpAddr "10.0.0.1" 1000), some (Addr.tcpAddr "10.0.0.2" 2000),
            [88, 89]),
         (some (Addr.tcpAddr "10.0.0.1" 1000), some (Addr.tcpAddr "10.0.0.2" 2000),
            [88, 90])] [] ∧
    twoByteH (some (Addr.tcpAddr "10.0.0.1" 1000))
        (some (Addr.tcpAddr "10.0.0.2" 2000)) [88, 89] = (2, none) ∧
    (88 : Byte) ∈ ([88, 90] : List Byte) ∧
    lookupS [(7, [88])] 7 ≠ some [] := by
  refine ⟨by decide, by decide, by decide, by decide⟩

/-- Claim C1 as amended: when the handler fully consumes the presented view
with nil error, the stored table entry is left exactly at its pre-append
content (the write-back is skipped), so the flow behaves as drained only when
that pre-append content was empty; previously retained residual bytes are
re-delivered on the next payload. -/
theorem fullConsumptionKeepsPreappendEntry (f : DataHandler) (tbl : Table)
    (b : List Byte) (ts sIP dIP : String) (sp dp : Nat) (syn ack fin : Bool)
    (fh : Nat) (p : List Byte)
    (hsa : (syn && ack) = false) (hfa : (fin && ack) = false) (hp : p ≠ [])
    (hlook : lookupS tbl fh = some b)
    (hf : f (some (Addr.tcpAddr sIP sp)) (some (Addr.tcpAddr dIP dp)) (b ++ p) =
            (((b ++ p).length : Int), none)) :
    step (some f) tbl (tcpPkt ts sIP dIP sp dp syn ack fin fh p) =
      .next tbl
        [(some (Addr.tcpAddr sIP sp), some (Addr.tcpAddr dIP dp), b ++ p)] [] := by
  rw [step_tcp_payload f tbl b ts sIP dIP sp dp syn ack fin fh p hsa hfa hp hlook]
  exact applyHandler_full f ts _ _ (b ++ p) fh tbl [] hf

/-- Witness for `fullConsumptionKeepsPreappendEntry`: flow 7 holds residual
`[88]`, payload `[89]` arrives, the handler consumes both bytes; the table
still maps 7 to `[88]`. -/
theorem fullConsumptionKeepsPreappendEntryWitness :
    step (some fullH) [(7, [88])]
        (tcpPkt "t2" "10.0.0.1" "10.0.0.2" 1000 2000 false true false 7 [89]) =
      .next [(7, [88])]
        [(some (Addr.tcpAddr "10.0.0.1" 1000), some (Addr.tcpAddr "10.0.0.2" 2000),
            [88] ++ [89])] [] :=
  fullConsumptionKeepsPreappendEntry fullH [(7, [88])] [88] "t2" "10.0.0.1"
    "10.0.0.2" 1000 2000 false true false 7 [89] (by decide) (by decide)
    (by decide) (by decide) (by decide)

/-- Counterexample to claim C2: after handshake on flow 7, a handler that
fails (non-EOF) on the buffer `[65]` sees `[65]` for the first payload packet;
the error leaves the table at its pre-append state (the local append is never
stored), so when payload `[66]` arrives the handler is called with `[66]`
alone — byte 65 of the failing view is NOT presented again. -/
theorem handlerErrorDropsPayloadCex :
    runCapture (some failOn65H) []
      [tcpPkt "t0" "10.0.0.1" "10.0.0.2" 1000 2000 true true false 7 [],
       tcpPkt "t1" "10.0.0.1" "10.0.0.2" 1000 2000 false true false 7 [65],
       tcpPkt "t2" "10.0.0.1" "10.0.0.2" 1000 2000 false true false 7 [66]] =
      .ok [(7, [66])]
        [(some (Addr.tcpAddr "10.0.0.1" 1000), some (Addr.tcpAddr "10.0.0.2" 2000),
            [65]),
         (some (Addr.tcpAddr "10.0.0.1" 1000), some (Addr.tcpAddr "10.0.0.2" 2000),
            [66])]
        [.handlerFailed "t1" (some (Addr.tcpAddr "10.0.0.1" 1000))
           (some (Addr.tcpAddr "10.0.0.2" 2000)) "boom"] ∧
    failOn65H (some (Addr.tcpAddr "10.0.0.1" 1000))
        (some (Addr.tcpAddr "10.0.0.2" 2000)) [65] =
      (0, some (.otherErr "boom")) ∧
    (65 : Byte) ∉ ([66] : List Byte) := by
  refine ⟨by decide, by decide, by decide⟩

/-- Claim C2 as amended: on a non-EOF handler error the loop logs and
continues with the stored buffer at its pre-append content — the earlier
residual is not truncated, but the payload appended for the erroring packet is
not persisted either, so the next invocation presents the pre-error residual
plus only the new payload, not the erroring packet's bytes. -/
theorem handlerErrorKeepsPreappendBuffer (f : DataHandler) (tbl : Table)
    (b : List Byte) (ts sIP dIP : String) (sp dp : Nat) (syn ack fin : Bool)
    (fh : Nat) (p : List Byte) (u : Int) (m : String)
    (hsa : (syn && ack) = false) (hfa : (fin && ack) = false) (hp : p ≠ [])
    (hlook : lookupS tbl fh = some b)
    (hf : f (some (Addr.tcpAddr sIP sp)) (some (Addr.tcpAddr dIP dp)) (b ++ p) =
            (u, some (.otherErr m))) :
    step (some f) tbl (tcpPkt ts sIP dIP sp dp syn ack fin fh p) =
      .next tbl
        [(some (Addr.tcpAddr sIP sp), some (Addr.tcpAddr dIP dp), b ++ p)]
        [.handlerFailed ts (some (Addr.tcpAddr sIP sp))
           (some (Addr.tcpAddr dIP dp)) m] := by
  rw [step_tcp_payload f tbl b ts sIP dIP sp dp syn ack fin fh p hsa hfa hp hlook]
  simpa using applyHandler_err f ts _ _ (b ++ p) fh tbl [] u m hf

/-- Witness for `handlerErrorKeepsPreappendBuffer`: flow 7 holds the empty
post-handshake buffer, payload `[65]` arrives, the handler fails with
`"boom"`; the iteration continues with the table unchanged and the failure
logged. -/
theorem handlerErrorKeepsPreappendBufferWitness :
    step (some failOn65H) [(7, [])]
        (tcpPkt "t1" "10.0.0.1" "10.0.0.2" 1000 2000 false true false 7 [65]) =
      .next [(7, [])]
        [(some (Addr.tcpAddr "10.0.0.1" 1000), some (Addr.tcpAddr "10.0.0.2" 2000),
            [] ++ [65])]
        [.handlerFailed "t1" (some (Addr.tcpAddr "10.0.0.1" 1000))
           (some (Addr.tcpAddr "10.0.0.2" 2000)) "boom"] :=
  handlerErrorKeepsPreappendBuffer failOn65H [(7, [])] [] "t1" "10.0.0.1"
    "10.0.0.2" 1000 2000 false true false 7 [65] 0 "boom" (by decide)
    (by decide) (by decide) (by decide) (by decide)

/-- Counterexample to claim C6: for a packet whose transport layer is neither
TCP nor UDP, the loop logs the unsupported layer but does NOT skip the
handler: the `default` arm of the switch falls through to
`fn(src, dst, buffer)`, so the handler is invoked with nil endpoints and a nil
buffer. -/
theorem otherTransportInvokesHandlerCex :
    runCapture (some zeroH) [] [⟨"t0", some ⟨"a", "b", .other "ICMPv4"⟩⟩] =
      .ok [] [(none, none, [])] [.unsupportedTransport "ICMPv4"] ∧
    ([(none, none, [])] : List Call) ≠ [] := by
  refine ⟨by decide, by decide⟩

/-- Claim C6 as amended: for a packet whose transport layer is neither TCP nor
UDP, the engine logs the unsupported layer and then still invokes the handler
with nil endpoints and an empty (nil) buffer; when the handler returns
`(0, nil)` the session table is unchanged and the loop continues without a
fatal error. -/
theorem otherTransportLogsAndInvokes (f : DataHandler) (tbl : Table)
    (ts sIP dIP name : String)
    (hf : f none none [] = (0, none)) :
    step (some f) tbl ⟨ts, some ⟨sIP, dIP, .other name⟩⟩ =
      .next tbl [(none, none, [])] [.unsupportedTransport name] := by
  have hstep : step (some f) tbl ⟨ts, some ⟨sIP, dIP, .other name⟩⟩ =
      applyHandler f ts none none [] 0 tbl [.unsupportedTransport name] := by
    simp [step]
  rw [hstep]
  exact applyHandler_full f ts none none [] 0 tbl [.unsupportedTransport name]
    (by simpa using hf)

/-- Witness for `otherTransportLogsAndInvokes`: an ICMPv4 packet with the
nothing-consuming handler — one handler call with nil arguments, one log
entry, table untouched. -/
theorem otherTransportLogsAndInvokesWitness :
    step (some zeroH) [(7, [1])] ⟨"t0", some ⟨"a", "b", .other "ICMPv4"⟩⟩ =
      .next [(7, [1])] [(none, none, [])] [.unsupportedTransport "ICMPv4"] :=
  otherTransportLogsAndInvokes zeroH [(7, [1])] "t0" "a" "b" "ICMPv4" (by decide)

end Pkt4Go


deriving instance DecidableEq for Except

namespace Pkt4Go

theorem matchDataSource_proto (s : List Char) (pr : String) (src : List Char)
    (h : matchDataSource s = some (pr, src)) : pr = "pcap" ∨ pr = "file" := by
  unfold matchDataSource at h
  split at h
  · simp only [Option.some.injEq, Prod.mk.injEq] at h
    exact Or.inl h.1.symm
  · split at h
    · simp only [Option.some.injEq, Prod.mk.injEq] at h
      exact Or.inr h.1.symm
    · exact absurd h (by simp)

theorem resolveSource_error_shape (env : NetEnv) (source : List Char)
    (e : HandlerError) (h : resolveSource env source = .error e) :
    ∃ m, e = .findDevsFailed m := by
  unfold resolveSource at h
  cases hip : env.resolveIP source with
  | none => rw [hip] at h; exact absurd h (by simp)
  | some ip =>
    rw [hip] at h
    cases hd : env.devs with
    | error m =>
      rw [hd] at h
      simp only [Except.error.injEq] at h
      exact ⟨m, h.symm⟩
    | ok ifaceList => rw [hd] at h; exact absurd h (by simp)

theorem CreateHandler_matched (env : NetEnv) (s : List Char) (pr : String)
    (src : List Char) (hm : matchDataSource s = some (pr, src)) :
    CreateHandler env s =
      match resolveSource env src with
      | .error e => .error e
      | .ok source' =>
        if pr = "pcap" then .ok (.live, source')
        else if pr = "file" then .ok (.offline, source')
        else .error (.unknownProto pr) := by
  unfold CreateHandler
  rw [hm]

/-- Counterexample to claim C8: the well-shaped descriptor `live://eth0`,
whose mode token is not one of the two known modes, fails with the
malformed-descriptor error `invalid data source: ...` — not with the distinct
unknown-mode error — because the compiled pattern
`^(?P<proto>pcap|file)://(?P<source>.*)$` itself refuses any mode token other
than `pcap` and `file`. -/
theorem unknownModeMalformedCex :
    CreateHandler envEmpty ("live://eth0".toList) =
      .error (.invalidDataSource ("live://eth0".toList)) ∧
    (Except.error (HandlerError.invalidDataSource ("live://eth0".toList)) :
        Except HandlerError (CaptureMode × List Char)) ≠
      .error (.unknownProto "live") := by
  refine ⟨by decide, by decide⟩

/-- Claim C8 as amended: any input not matching
`{pcap|file}://{source}` fails with the malformed-descriptor error; since the
shape check itself restricts the mode token to the two known modes, an input
with an unknown mode token is already malformed, and the distinct
`unknown pcap protocol` error is unreachable on every input and environment. -/
theorem unknownProtoUnreachable :
    (∀ (env : NetEnv) (s : List Char) (p : String),
       CreateHandler env s ≠ .error (.unknownProto p)) ∧
    (∀ (env : NetEnv) (s : List Char),
       matchDataSource s = none →
       CreateHandler env s = .error (.invalidDataSource s)) := by
  constructor
  · intro env s p h
    cases hm : matchDataSource s with
    | none =>
      unfold CreateHandler at h
      rw [hm] at h
      simp at h
    | some pr_src =>
      obtain ⟨pr, src⟩ := pr_src
      rw [CreateHandler_matched env s pr src hm] at h
      cases hr : resolveSource env src with
      | error e =>
        rw [hr] at h
        obtain ⟨m, rfl⟩ := resolveSource_error_shape env src e hr
        simp at h
      | ok source' =>
        rw [hr] at h
        rcases matchDataSource_proto s pr src hm with rfl | rfl
        · simp at h
        · simp at h
  · intro env s hm
    unfold CreateHandler
    rw [hm]

/-- Witness for `unknownProtoUnreachable`: on the concrete descriptor
`live://eth0` the result is the malformed-descriptor error, never the
unknown-mode error. -/
theorem unknownProtoUnreachableWitness :
    CreateHandler envEmpty ("live://eth0".toList) ≠
      .error (.unknownProto "live") ∧
    CreateHandler envEmpty ("live://eth0".toList) =
      .error (.invalidDataSource ("live://eth0".toList)) :=
  ⟨unknownProtoUnreachable.1 envEmpty ("live://eth0".toList) "live",
   unknownProtoUnreachable.2 envEmpty ("live://eth0".toList) (by decide)⟩

/-- Counterexample to claim C9: in replay (`file`) mode the locator is NOT
passed through unchanged — the IP-to-interface rewriting block runs before the
protocol switch, for every protocol.  With one local interface `eth0` owning
`10.1.2.3`, the descriptor `file://10.1.2.3` hands `eth0`, not `10.1.2.3`, to
`pcap.OpenOffline`. -/
theorem replayModeRewritesCex :
    CreateHandler envEth0 ("file://10.1.2.3".toList) =
      .ok (.offline, "eth0".toList) ∧
    ("eth0".toList : List Char) ≠ "10.1.2.3".toList := by
  refine ⟨by decide, by decide⟩

/-- Claim C9 as amended: the local-IP-to-interface rewriting is applied
identically in both modes — `CreateHandler` hands `resolveSource env source`
to the capture adapter whether the mode is `file` (replay) or `pcap` (live);
in replay mode the locator reaches the adapter unchanged only when the
rewriting leaves it unchanged (e.g. it does not resolve as an IP owned by a
local interface). -/
theorem rewriteAppliesInBothModes (env : NetEnv) (src : List Char)
    (hn : src.contains '\n' = false) :
    CreateHandler env ("file://".toList ++ src) =
      (resolveSource env src).map (fun s' => (CaptureMode.offline, s')) ∧
    CreateHandler env ("pcap://".toList ++ src) =
      (resolveSource env src).map (fun s' => (CaptureMode.live, s')) := by
  have htf : ("file://".toList ++ src).take 7 = "file://".toList :=
    List.take_left' (by decide)
  have hdf : ("file://".toList ++ src).drop 7 = src :=
    List.drop_left' (by decide)
  have htp : ("pcap://".toList ++ src).take 7 = "pcap://".toList :=
    List.take_left' (by decide)
  have hdp : ("pcap://".toList ++ src).drop 7 = src :=
    List.drop_left' (by decide)
  have hmf : matchDataSource ("file://".toList ++ src) = some ("file", src) := by
    have hno : ¬(("file://".toList ++ src).take 7 = "pcap://".toList ∧
        ¬((("file://".toList ++ src).drop 7).contains '\n' = true)) := by
      rintro ⟨hc, -⟩
      rw [htf] at hc
      exact absurd hc (by decide)
    have hyes : ("file://".toList ++ src).take 7 = "file://".toList ∧
        ¬((("file://".toList ++ src).drop 7).contains '\n' = true) :=
      ⟨htf, by rw [hdf, hn]; simp⟩
    unfold matchDataSource
    rw [if_neg hno, if_pos hyes, hdf]
  have hmp : matchDataSource ("pcap://".toList ++ src) = some ("pcap", src) := by
    have hyes : ("pcap://".toList ++ src).take 7 = "pcap://".toList ∧
        ¬((("pcap://".toList ++ src).drop 7).contains '\n' = true) :=
      ⟨htp, by rw [hdp, hn]; simp⟩
    unfold matchDataSource
    rw [if_pos hyes, hdp]
  constructor
  · rw [CreateHandler_matched env _ "file" src hmf]
    cases hr : resolveSource env src with
    | error e => rfl
    | ok source' => rfl
  · rw [CreateHandler_matched env _ "pcap" src hmp]
    cases hr : resolveSource env src with
    | error e => rfl
    | ok source' => rfl

/-- Witness for `rewriteAppliesInBothModes`: with interface `eth0` owning
`10.1.2.3`, both `file://10.1.2.3` and `pcap://10.1.2.3` hand the rewritten
source `resolveSource envEth0 "10.1.2.3"` to the adapter. -/
theorem rewriteAppliesInBothModesWitness :
    CreateHandler envEth0 ("file://".toList ++ "10.1.2.3".toList) =
      (resolveSource envEth0 ("10.1.2.3".toList)).map
        (fun s' => (CaptureMode.offline, s')) ∧
    CreateHandler envEth0 ("pcap://".toList ++ "10.1.2.3".toList) =
      (resolveSource envEth0 ("10.1.2.3".toList)).map
        (fun s' => (CaptureMode.live, s')) :=
  rewriteAppliesInBothModes envEth0 ("10.1.2.3".toList) (by decide)

end Pkt4Go
